import Mathlib

/-!
Verification development for the coal game-library application: the
ownership & loan lifecycle (spec sections 3, 4 and 8), the library
projection display logic (frontend `LibraryView.tsx`), the library
filtering and sorting transform, and the loan-form duration coercion
(frontend `LoanModal`).

The relational schema is taken from
`src/backend/migrations/001_create_tables.sql` (table `user_games`);
the display, sort and form logic from the frontend sources.  The REST
backend that implements the loan lifecycle engine itself is not part
of the repository's sources, so those operations are modelled from the
spec (each such definition is marked `Modelled from the spec:`).
-/

namespace Coal

/-- Error kinds of the ownership/loan subsystem (spec section 7). -/
inductive LibError where
  | NotFound
  | DuplicateOwnership
  | InvalidState
  | InvalidArgument
deriving DecidableEq

/-- One row of the `user_games` table
(`001_create_tables.sql`): ownership id, owning user, game, acquisition
kind (column `type`), purchase timestamp (epoch milliseconds), hours
played (DECIMAL, modelled as a rational), status string, and the
nullable loan columns `loaned_to` / `loan_duration`.  The field
`loan_start` does not exist in the schema; it is the loan-start
timestamp the spec's persisted layout (section 6) adds, kept here so the
spec-modelled engine can be stated (`none` everywhere the schema rules). -/
structure OwnershipRecord where
  ownership_id : Nat
  user_id : Nat
  game_id : Nat
  kind : String
  date_purchased : Int
  hours_played : ℚ
  status : String
  loaned_to : Option Nat
  loan_duration : Option Int
  loan_start : Option Int
deriving DecidableEq

/-- The record is in the `Available` state: no loan fields set (spec 4.2). -/
def availableState (r : OwnershipRecord) : Bool :=
  r.loaned_to.isNone && r.loan_duration.isNone

/-- The record is in the `OnLoan` state: loan fields set (spec 4.2). -/
def onLoanState (r : OwnershipRecord) : Bool :=
  r.loaned_to.isSome && r.loan_duration.isSome

/-- A record holds exactly one of the two loan fields — the state the
invariant of spec section 3 forbids. -/
def halfSetLoan (r : OwnershipRecord) : Bool :=
  (r.loaned_to.isNone && r.loan_duration.isSome) ||
    (r.loaned_to.isSome && r.loan_duration.isNone)

/-- The four legal `status` values (spec sections 3 and 4.2). -/
def validStatus (st : String) : Bool :=
  st == "owned" || st == "playing" || st == "completed" || st == "wishlist"

/-- Modelled from the spec: `loan(ownershipId, borrowerId, durationDays)`
of the Loan Lifecycle Engine (spec 4.2), record-level part.  The engine is
in the REST backend, which is absent from the sources; failure order
follows the spec's listing (`InvalidState` if already `OnLoan`, then
`InvalidArgument` if duration < 1 or borrower = owner). -/
def loanRec (r : OwnershipRecord) (borrowerId : Nat) (durationDays : Int)
    (now : Int) : Except LibError OwnershipRecord :=
  if r.loaned_to.isSome || r.loan_duration.isSome then
    .error .InvalidState
  else if durationDays < 1 then
    .error .InvalidArgument
  else if borrowerId == r.user_id then
    .error .InvalidArgument
  else
    .ok { r with loaned_to := some borrowerId,
                 loan_duration := some durationDays,
                 loan_start := some now }

/-- Modelled from the spec: `returnLoan(ownershipId)` of the Loan
Lifecycle Engine (spec 4.2), record-level part: requires the `OnLoan`
state, clears `loaned_to`, `loan_duration` and the loan-start timestamp. -/
def returnLoanRec (r : OwnershipRecord) : Except LibError OwnershipRecord :=
  if r.loaned_to.isSome || r.loan_duration.isSome then
    .ok { r with loaned_to := none, loan_duration := none, loan_start := none }
  else
    .error .InvalidState

/-- Modelled from the spec: `recordPlaytime(ownershipId, deltaHours)`
(spec 4.2): adds a non-negative delta to `hours_played`, independent of
loan state; `InvalidArgument` if the delta is negative. -/
def recordPlaytimeRec (r : OwnershipRecord) (deltaHours : ℚ) :
    Except LibError OwnershipRecord :=
  if deltaHours < 0 then
    .error .InvalidArgument
  else
    .ok { r with hours_played := r.hours_played + deltaHours }

/-- Modelled from the spec: `setStatus(ownershipId, newStatus)`
(spec 4.2): sets `status` to one of the four enumerated values,
`InvalidArgument` for any other string. -/
def setStatusRec (r : OwnershipRecord) (st : String) :
    Except LibError OwnershipRecord :=
  if validStatus st then .ok { r with status := st }
  else .error .InvalidArgument

/-- The row `create` inserts (spec 4.1: status=owned, hours_played=0, no
loan fields; schema defaults `status 'owned'`, `hours_played 0.0`). -/
def mkRecord (oid ownerId gameId : Nat) (kind : String) (now : Int) :
    OwnershipRecord :=
  { ownership_id := oid
    user_id := ownerId
    game_id := gameId
    kind := kind
    date_purchased := now
    hours_played := 0
    status := "owned"
    loaned_to := none
    loan_duration := none
    loan_start := none }

/-- The Ownership Store: the rows of `user_games` plus the next value of
the `ownership_id SERIAL` sequence. -/
structure LibState where
  recs : List OwnershipRecord
  nextId : Nat
deriving DecidableEq

/-- The empty store; `SERIAL` sequences start at 1. -/
def initState : LibState := { recs := [], nextId := 1 }

/-- `get`: first row with the given ownership id. -/
def findRec (s : LibState) (oid : Nat) : Option OwnershipRecord :=
  s.recs.find? (fun r => r.ownership_id == oid)

/-- Row-level UPDATE: replace the row(s) carrying `oid`. -/
def replaceRec (recs : List OwnershipRecord) (oid : Nat)
    (r' : OwnershipRecord) : List OwnershipRecord :=
  recs.map (fun r => if r.ownership_id == oid then r' else r)

/-- The command surface of spec section 6, plus `deleteUser`, whose
effect on `user_games` is fixed by the schema's foreign keys
(`user_id ... ON DELETE CASCADE`, `loaned_to ... ON DELETE SET NULL`). -/
inductive Cmd where
  | addToLibrary (ownerId gameId : Nat) (kind : String) (now : Int)
  | loan (oid borrowerId : Nat) (durationDays : Int) (now : Int)
  | returnLoan (oid : Nat)
  | updatePlaytime (oid : Nat) (deltaHours : ℚ)
  | setStatus (oid : Nat) (st : String)
  | deleteUser (uid : Nat)
deriving DecidableEq

/-- `deleteUser` is the only command outside the engine's surface. -/
def isDeleteCmd : Cmd → Bool
  | .deleteUser _ => true
  | _ => false

/-- Lift a record-level engine operation to the store: `NotFound` when
the ownership id is absent, otherwise write back the mutated row; on any
failure the store is returned unchanged. -/
def applyRec (s : LibState) (oid : Nat)
    (f : OwnershipRecord → Except LibError OwnershipRecord) :
    LibState × Option LibError :=
  match findRec s oid with
  | none => (s, some .NotFound)
  | some r =>
    match f r with
    | .error e => (s, some e)
    | .ok r' => ({ s with recs := replaceRec s.recs oid r' }, none)

/-- One step of the subsystem: run a command against the store.
`addToLibrary` is `create` of spec 4.1 (`DuplicateOwnership` when an
active record for the (owner, game) pair exists, else insert with the
schema defaults); the engine commands go through `applyRec`;
`deleteUser` follows the schema's `ON DELETE` actions: rows owned by the
user are cascaded away, and rows loaned to the user get `loaned_to` set
to NULL — the schema touches no other column. -/
def step (s : LibState) : Cmd → LibState × Option LibError
  | .addToLibrary ownerId gameId kind now =>
    if s.recs.any (fun r => r.user_id == ownerId && r.game_id == gameId) then
      (s, some .DuplicateOwnership)
    else
      ({ recs := s.recs ++ [mkRecord s.nextId ownerId gameId kind now],
         nextId := s.nextId + 1 }, none)
  | .loan oid borrowerId durationDays now =>
    applyRec s oid (fun r => loanRec r borrowerId durationDays now)
  | .returnLoan oid => applyRec s oid returnLoanRec
  | .updatePlaytime oid deltaHours =>
    applyRec s oid (fun r => recordPlaytimeRec r deltaHours)
  | .setStatus oid st => applyRec s oid (fun r => setStatusRec r st)
  | .deleteUser uid =>
    let survivors := s.recs.filter (fun r => !(r.user_id == uid))
    let cleared := survivors.map (fun r =>
      if r.loaned_to == some uid then { r with loaned_to := none } else r)
    ({ s with recs := cleared }, none)

/-- Run a command sequence from a store, keeping the resulting state. -/
def runCmds (s : LibState) (cs : List Cmd) : LibState :=
  cs.foldl (fun s c => (step s c).1) s

/-! ## Library projection: derived loan fields and per-viewer display

`UserLibraryItem` mirrors the declaration in
`src/frontend/renderer/types/index.ts`; the display predicates follow
`LibraryView.tsx` line by line. -/

/-- Milliseconds per day, the divisor behind "(now − start) in days". -/
def msPerDay : Int := 86400000

/-- `Math.ceil` on a rational: the ceiling of `num/den` computed with
floor division (`den` is positive). -/
def jsCeil (q : ℚ) : Int := Int.fdiv (q.num + (q.den : Int) - 1) (q.den : Int)

/-- The borrower-facing "time remaining" value rendered by
`LibraryView.tsx` (`Math.max(0, Math.ceil(game.days_remaining))`). -/
def displayedDaysRemaining (q : ℚ) : Int := max 0 (jsCeil q)

/-- Modelled from the spec: the projection's `days_remaining` as the
source computes it.  The backend is absent from the sources; the schema
has no loan-start column and the spec's design note (section 9) records
that the source measures elapsed time from the purchase/added timestamp
`date_purchased`. -/
def daysRemainingSrc (r : OwnershipRecord) (now : Int) : ℚ :=
  ((r.loan_duration.getD 0 : Int) : ℚ) -
    ((now - r.date_purchased : Int) : ℚ) / ((msPerDay : Int) : ℚ)

/-- `days_remaining` as the spec's data model defines it (section 3):
`loan_duration` minus the days elapsed since the dedicated loan-start
timestamp. -/
def daysRemainingLoanStart (r : OwnershipRecord) (now : Int) : ℚ :=
  ((r.loan_duration.getD 0 : Int) : ℚ) -
    ((now - r.loan_start.getD 0 : Int) : ℚ) / ((msPerDay : Int) : ℚ)

/-- JavaScript truthiness of an optional numeric id (`game.loaned_to &&
...`): `undefined` and `0` are falsy. -/
def jsTruthyNat : Option Nat → Bool
  | none => false
  | some n => !(n == 0)

/-- One element of the `GET /users/{id}/library` response, as declared
in `types/index.ts` (`UserLibraryItem`); optional fields are `Option`,
the optional boolean `is_borrowed` is modelled with `undefined` read as
`false`. -/
structure UserLibraryItem where
  ownership_id : Nat
  game_id : Nat
  title : String
  genre : Option String
  platform : Option String
  price : Option ℚ
  hours_played : ℚ
  status : String
  date_purchased : Int
  loaned_to : Option Nat
  loaned_to_username : Option String
  loan_duration : Option Int
  is_borrowed : Bool
  owner_username : Option String
  days_remaining : Option ℚ
deriving DecidableEq

/-- `LibraryView.tsx`: the "loaned to …" overlay is rendered when
`game.loaned_to && !game.is_borrowed`. -/
def showLoanedOverlay (g : UserLibraryItem) : Bool :=
  jsTruthyNat g.loaned_to && !g.is_borrowed

/-- `LibraryView.tsx`: the overlay text, `loaned to
{game.loaned_to_username || 'user'}`. -/
def loanedOverlayText (g : UserLibraryItem) : String :=
  "loaned to " ++ g.loaned_to_username.getD "user"

/-- `LibraryView.tsx`: the "borrowed from …" badge is rendered exactly
when `game.is_borrowed`. -/
def showBorrowedBadge (g : UserLibraryItem) : Bool := g.is_borrowed

/-- `LibraryView.tsx`: the badge text `borrowed from
{game.owner_username}` (an absent username renders as nothing). -/
def borrowedBadgeText (g : UserLibraryItem) : String :=
  "borrowed from " ++ g.owner_username.getD ""

/-- `LibraryView.tsx`: the "time remaining" row is rendered when
`game.is_borrowed && game.days_remaining !== undefined`. -/
def showTimeRemaining (g : UserLibraryItem) : Bool :=
  g.is_borrowed && g.days_remaining.isSome

/-- `LibraryView.tsx`: the hours-played / price / added-date / status
block is rendered exactly when `!game.is_borrowed`. -/
def showStatsBlock (g : UserLibraryItem) : Bool := !g.is_borrowed

/-- Which action button the hover card offers. -/
inductive CardButton where
  | returnBtn
  | loanBtn
  | noBtn
deriving DecidableEq

/-- `LibraryView.tsx`: `is_borrowed` gives the return button, otherwise
`!game.loaned_to` gives the loan button, otherwise none. -/
def cardButton (g : UserLibraryItem) : CardButton :=
  if g.is_borrowed then .returnBtn
  else if !(jsTruthyNat g.loaned_to) then .loanBtn
  else .noBtn

/-! ## Library filtering and sorting (`filteredAndSortedGames`) -/

/-- Lower-cased character list of a string (`.toLowerCase()`). -/
def toLowerList (s : String) : List Char := s.toList.map Char.toLower

/-- Does the second list start with the first? -/
def startsWithList : List Char → List Char → Bool
  | [], _ => true
  | _ :: _, [] => false
  | p :: ps, c :: cs => p == c && startsWithList ps cs

/-- Does the second list contain the first as a contiguous run
(`String.prototype.includes`)? -/
def hasSubList (pat : List Char) : List Char → Bool
  | [] => pat.isEmpty
  | c :: cs => startsWithList pat (c :: cs) || hasSubList pat cs

/-- The filter predicate of `filteredAndSortedGames`: case-insensitive
substring match of the search query against the title, or against the
genre when present. -/
def matchesSearch (q : String) (g : UserLibraryItem) : Bool :=
  hasSubList (toLowerList q) (toLowerList g.title) ||
    (match g.genre with
     | some ge => hasSubList (toLowerList q) (toLowerList ge)
     | none => false)

/-- The three values of the view's sort selector. -/
inductive SortKey where
  | title
  | hours
  | recent
deriving DecidableEq

/-- Three-way comparison of strings by code points — the model of
`localeCompare` (the default locale order is not bit-modelled; code-point
order stands in for it). -/
def cmpCharList : List Char → List Char → Int
  | [], [] => 0
  | [], _ :: _ => -1
  | _ :: _, [] => 1
  | a :: as, b :: bs =>
    if a.toNat < b.toNat then -1
    else if b.toNat < a.toNat then 1
    else cmpCharList as bs

/-- The comparator of `filteredAndSortedGames`: `localeCompare` on
titles, `b.hours_played - a.hours_played`, or
`new Date(b.date_purchased).getTime() - new Date(a.date_purchased).getTime()`. -/
def cmpGames : SortKey → UserLibraryItem → UserLibraryItem → ℚ
  | .title, a, b => ((cmpCharList a.title.toList b.title.toList : Int) : ℚ)
  | .hours, a, b => b.hours_played - a.hours_played
  | .recent, a, b => ((b.date_purchased - a.date_purchased : Int) : ℚ)

/-- Insert an element into an already-processed list, after every
element it does not strictly precede — the insertion step of a stable
comparator sort. -/
def insertCmp (cmp : α → α → ℚ) (x : α) : List α → List α
  | [] => [x]
  | y :: ys => if cmp x y < 0 then x :: y :: ys else y :: insertCmp cmp x ys

/-- Stable comparator sort (ES2019 `Array.prototype.sort` is stable):
elements are taken in input order and each is inserted after all
elements it ties with. -/
def sortCmp (cmp : α → α → ℚ) (l : List α) : List α :=
  l.foldl (fun acc x => insertCmp cmp x acc) []

/-- `filteredAndSortedGames` of `LibraryView.tsx`: filter by the search
query, then sort with the selected comparator. -/
def filteredAndSortedGames (key : SortKey) (q : String)
    (games : List UserLibraryItem) : List UserLibraryItem :=
  sortCmp (cmpGames key) (games.filter (matchesSearch q))

/-! ## Loan form: duration input (`LoanModal`) -/

/-- Leading decimal digits of a character list; `none` when the first
character is not a digit. -/
def leadDigits (cs : List Char) : Option Nat :=
  let ds := cs.takeWhile Char.isDigit
  if ds.isEmpty then none
  else some (ds.foldl (fun a c => a * 10 + (c.toNat - 48)) 0)

/-- JavaScript `parseInt(value)` restricted to base 10: skip leading
whitespace, read an optional sign and the leading run of digits, ignore
the rest; `none` stands for `NaN`. -/
def jsParseInt (s : String) : Option Int :=
  let cs := s.toList.dropWhile (fun c =>
    c == ' ' || c == '\t' || c == '\n' || c == '\r')
  match cs with
  | '-' :: rest => (leadDigits rest).map (fun n => -(n : Int))
  | '+' :: rest => (leadDigits rest).map (fun n => (n : Int))
  | _ => (leadDigits cs).map (fun n => (n : Int))

/-- `LoanModal`: the duration `onChange` handler stores
`parseInt(e.target.value) || 1` — `NaN` and `0` are falsy, so both fall
back to `1`. -/
def loanDurationInput (s : String) : Int :=
  match jsParseInt s with
  | none => 1
  | some n => if n == 0 then 1 else n

/-- `LoanModal`: the `min` attribute of the duration input element. -/
def durationInputMin : Int := 1

/-- `LoanModal`: the `max` attribute of the duration input element. -/
def durationInputMax : Int := 365

/-- `LoanModal.handleSubmit`: the body of the PATCH
`/library/loan/{ownershipId}` request — the selected borrower id and the
stored integer duration. -/
def loanRequestBody (selectedUserId : Nat) (duration : Int) : Nat × Int :=
  (selectedUserId, duration)

/-! ## Concrete inputs used by witnesses and counterexamples -/

/-- A freshly created ownership record: user 1 owns game 42. -/
def demoAvailRec : OwnershipRecord := mkRecord 1 1 42 "digital" 0

/-- A store holding just the available record. -/
def demoAvailState : LibState := { recs := [demoAvailRec], nextId := 2 }

/-- The same record while loaned to user 2 for 7 days. -/
def demoLoanedRec : OwnershipRecord :=
  { demoAvailRec with loaned_to := some 2, loan_duration := some 7,
                      loan_start := some 0 }

/-- A store holding just the loaned record. -/
def demoLoanedState : LibState := { recs := [demoLoanedRec], nextId := 2 }

/-- A record purchased at time 0 and loaned 10 days later for 7 days:
the input on which the purchase-based and loan-start-based
`days_remaining` disagree. -/
def staleLoanRec : OwnershipRecord :=
  { mkRecord 1 1 42 "digital" 0 with
      loaned_to := some 2
      loan_duration := some 7
      loan_start := some (10 * msPerDay) }

/-- Commands that create a record, loan it out and then delete the
borrower's user account. -/
def deleteBorrowerCmds : List Cmd :=
  [.addToLibrary 1 42 "digital" 0, .loan 1 2 7 0, .deleteUser 2]

/-- Commands that create a record, loan it out and take it back. -/
def loanCycleCmds : List Cmd :=
  [.addToLibrary 1 42 "digital" 0, .loan 1 2 7 0, .returnLoan 1]

/-- A library item on loan as its owner sees it: `is_borrowed` is false
and `loaned_to` is set. -/
def ownerLoanedItem : UserLibraryItem :=
  { ownership_id := 1, game_id := 42, title := "alpha", genre := some "rpg",
    platform := some "pc", price := some 10, hours_played := 3,
    status := "owned", date_purchased := 0, loaned_to := some 2,
    loaned_to_username := some "bob", loan_duration := some 7,
    is_borrowed := false, owner_username := none, days_remaining := none }

/-- The same game as its borrower sees it: `is_borrowed` is true, with
the owner's username and the remaining days attached. -/
def borrowerItem : UserLibraryItem :=
  { ownerLoanedItem with
      is_borrowed := true
      owner_username := some "alice"
      days_remaining := some 5 }

/-- A library item with ownership id 2 and 5 hours played. -/
def tieItemA : UserLibraryItem :=
  { ownership_id := 2, game_id := 10, title := "alpha", genre := none,
    platform := none, price := none, hours_played := 5, status := "owned",
    date_purchased := 0, loaned_to := none, loaned_to_username := none,
    loan_duration := none, is_borrowed := false, owner_username := none,
    days_remaining := none }

/-- A second item tying with `tieItemA` on every sort key that has
ties (equal hours, equal purchase date) but with the smaller id 1. -/
def tieItemB : UserLibraryItem :=
  { tieItemA with ownership_id := 1, title := "beta" }

/-! ## Helper lemmas -/

/-- A successful `loanRec` call yields exactly the record with the loan
fields and loan-start set. -/
theorem loanRec_ok_shape {r r' : OwnershipRecord} {b : Nat} {d now : Int}
    (h : loanRec r b d now = .ok r') :
    r' = { r with loaned_to := some b, loan_duration := some d,
                  loan_start := some now } := by
  unfold loanRec at h
  split at h
  · cases h
  · split at h
    · cases h
    · split at h
      · cases h
      · injection h with h
        exact h.symm

/-- A successful `returnLoanRec` call yields exactly the record with all
loan fields cleared. -/
theorem returnLoanRec_ok_shape {r r' : OwnershipRecord}
    (h : returnLoanRec r = .ok r') :
    r' = { r with loaned_to := none, loan_duration := none,
                  loan_start := none } := by
  unfold returnLoanRec at h
  split at h
  · injection h with h
    exact h.symm
  · cases h

/-- A successful `recordPlaytimeRec` call only changes `hours_played`. -/
theorem recordPlaytimeRec_ok_shape {r r' : OwnershipRecord} {delta : ℚ}
    (h : recordPlaytimeRec r delta = .ok r') :
    r' = { r with hours_played := r.hours_played + delta } := by
  unfold recordPlaytimeRec at h
  split at h
  · cases h
  · injection h with h
    exact h.symm

/-- A successful `setStatusRec` call only changes `status`. -/
theorem setStatusRec_ok_shape {r r' : OwnershipRecord} {st : String}
    (h : setStatusRec r st = .ok r') : r' = { r with status := st } := by
  unfold setStatusRec at h
  split at h
  · injection h with h
    exact h.symm
  · cases h

/-- Replacing a row keeps a rowwise property when the new row has it. -/
theorem all_replaceRec (p : OwnershipRecord → Bool)
    (recs : List OwnershipRecord) (oid : Nat) (r' : OwnershipRecord)
    (hall : recs.all p = true) (hr' : p r' = true) :
    (replaceRec recs oid r').all p = true := by
  induction recs with
  | nil => rfl
  | cons r rs ih =>
    simp only [replaceRec, List.map_cons, List.all_cons,
      Bool.and_eq_true] at hall ⊢
    refine ⟨?_, ?_⟩
    · split
      · exact hr'
      · exact hall.1
    · simpa only [replaceRec] using ih hall.2

/-- `applyRec` keeps a rowwise property when the record-level operation
does. -/
theorem applyRec_all (p : OwnershipRecord → Bool) (s : LibState) (oid : Nat)
    (f : OwnershipRecord → Except LibError OwnershipRecord)
    (hs : s.recs.all p = true)
    (hf : ∀ r r', r ∈ s.recs → f r = .ok r' → p r' = true) :
    ((applyRec s oid f).1).recs.all p = true := by
  unfold applyRec
  cases hfind : findRec s oid with
  | none => exact hs
  | some r =>
    cases hok : f r with
    | error e => simp only [hok]; exact hs
    | ok r' =>
      simp only [hok]
      have hmem : r ∈ s.recs :=
        List.mem_of_find?_eq_some (by simpa [findRec] using hfind)
      exact all_replaceRec p s.recs oid r' hs (hf r r' hmem hok)

/-- A non-delete command never produces a record with exactly one of the
two loan fields set. -/
theorem step_preserves_no_half (s : LibState) (c : Cmd)
    (hc : isDeleteCmd c = false)
    (hs : s.recs.all (fun r => !(halfSetLoan r)) = true) :
    ((step s c).1).recs.all (fun r => !(halfSetLoan r)) = true := by
  cases c with
  | addToLibrary ownerId gameId kind now =>
    simp only [step]
    split
    · exact hs
    · simp only [List.all_append]
      refine (Bool.and_eq_true _ _).mpr ⟨hs, ?_⟩
      rfl
  | loan oid b d now =>
    exact applyRec_all _ s oid _ hs (fun r r' _ hok => by
      rw [loanRec_ok_shape hok]; rfl)
  | returnLoan oid =>
    exact applyRec_all _ s oid _ hs (fun r r' _ hok => by
      rw [returnLoanRec_ok_shape hok]; rfl)
  | updatePlaytime oid delta =>
    exact applyRec_all _ s oid _ hs (fun r r' hmem hok => by
      rw [recordPlaytimeRec_ok_shape hok]
      have hr := List.all_eq_true.mp hs r hmem
      simpa [halfSetLoan] using hr)
  | setStatus oid st =>
    exact applyRec_all _ s oid _ hs (fun r r' hmem hok => by
      rw [setStatusRec_ok_shape hok]
      have hr := List.all_eq_true.mp hs r hmem
      simpa [halfSetLoan] using hr)
  | deleteUser uid => simp [isDeleteCmd] at hc

/-- Membership in the stable insertion. -/
theorem mem_insertCmp {α : Type} (cmp : α → α → ℚ) (x z : α) (l : List α) :
    z ∈ insertCmp cmp x l ↔ z = x ∨ z ∈ l := by
  induction l with
  | nil => simp [insertCmp]
  | cons y ys ih =>
    show z ∈ (if cmp x y < 0 then x :: y :: ys else y :: insertCmp cmp x ys) ↔ _
    by_cases hxy : cmp x y < 0
    · rw [if_pos hxy]
      simp [List.mem_cons]
    · rw [if_neg hxy]
      simp only [List.mem_cons, ih]
      tauto

/-- The stable insertion keeps the accumulator sorted by descending
key when the comparator is the key difference `k b - k a`. -/
theorem insertCmp_pairwise_key {α : Type} (k : α → ℚ) (x : α) (l : List α)
    (hs : l.Pairwise (fun a b => k b ≤ k a)) :
    (insertCmp (fun a b => k b - k a) x l).Pairwise
      (fun a b => k b ≤ k a) := by
  induction l with
  | nil => simp [insertCmp]
  | cons y ys ih =>
    rw [List.pairwise_cons] at hs
    show (if k y - k x < 0 then x :: y :: ys
      else y :: insertCmp (fun a b => k b - k a) x ys).Pairwise
        (fun a b => k b ≤ k a)
    by_cases hxy : k y - k x < 0
    · rw [if_pos hxy]
      have hyx : k y ≤ k x := by linarith
      refine List.pairwise_cons.mpr ⟨?_, List.pairwise_cons.mpr hs⟩
      intro z hz
      rcases List.mem_cons.mp hz with hz | hz
      · rw [hz]; exact hyx
      · exact le_trans (hs.1 z hz) hyx
    · rw [if_neg hxy]
      have hxy' : k x ≤ k y := by
        have := not_lt.mp hxy
        linarith
      refine List.pairwise_cons.mpr ⟨?_, ih hs.2⟩
      intro z hz
      rcases (mem_insertCmp _ x z ys).mp hz with hz | hz
      · rw [hz]; exact hxy'
      · exact hs.1 z hz

/-- Inserting into a descending-sorted accumulator places the new
element after every element selected by a tie-compatible predicate:
the `p`-sublist gains `x` at its end when `p x`, else is untouched. -/
theorem filter_insertCmp_tied {α : Type} (k : α → ℚ) (p : α → Bool)
    (x : α) (l : List α) (hs : l.Pairwise (fun a b => k b ≤ k a))
    (hp : ∀ a b, p a = true → p b = true → k a = k b) :
    (insertCmp (fun a b => k b - k a) x l).filter p =
      if p x then l.filter p ++ [x] else l.filter p := by
  induction l with
  | nil =>
    show [x].filter p = _
    by_cases hx : p x = true <;> simp [hx]
  | cons y ys ih =>
    rw [List.pairwise_cons] at hs
    show (if k y - k x < 0 then x :: y :: ys
      else y :: insertCmp (fun a b => k b - k a) x ys).filter p = _
    by_cases hxy : k y - k x < 0
    · rw [if_pos hxy]
      by_cases hx : p x = true
      · have hnil : (y :: ys).filter p = [] := by
          rw [List.filter_eq_nil_iff]
          intro z hz hpz
          have hzx : k z = k x := hp z x hpz hx
          rcases List.mem_cons.mp hz with hz | hz
          · rw [hz] at hzx; linarith
          · have := hs.1 z hz; linarith
        simp [List.filter_cons, hx, hnil]
      · rw [List.filter_cons, if_neg hx]
        simp [hx]
    · rw [if_neg hxy]
      by_cases hy : p y = true <;> by_cases hx : p x = true <;>
        simp [List.filter_cons, hy, hx, ih hs.2]

/-- Stability of the comparator sort for a key-difference comparator:
the sublist selected by any tie-compatible predicate comes out of the
sort in its input order. -/
theorem sortCmp_filter_stable {α : Type} (k : α → ℚ) (p : α → Bool)
    (l : List α) (hp : ∀ a b, p a = true → p b = true → k a = k b) :
    (sortCmp (fun a b => k b - k a) l).filter p = l.filter p := by
  suffices aux : ∀ (l acc : List α),
      acc.Pairwise (fun a b => k b ≤ k a) →
      (l.foldl (fun acc x =>
        insertCmp (fun a b => k b - k a) x acc) acc).filter p =
        acc.filter p ++ l.filter p by
    simpa [sortCmp] using aux l [] List.Pairwise.nil
  intro l
  induction l with
  | nil => intro acc _; simp
  | cons x xs ih =>
    intro acc hs
    rw [List.foldl_cons, ih _ (insertCmp_pairwise_key k x acc hs),
      filter_insertCmp_tied k p x acc hs hp, List.filter_cons]
    by_cases hx : p x = true <;> simp [hx]

/-! ## Claim theorems -/

/-- C1: for every ownership record in the `Available` state (no loan
fields set), `Loan(ownershipId, borrowerId, durationDays)` followed
immediately by `ReturnLoan(ownershipId)` restores the record to a state
observationally identical to its state before the loan, except for
timestamps: `loaned_to` and `loan_duration` are cleared and all other
fields (owner, game, kind, hours_played, status) are unchanged. -/
theorem loan_return_roundtrip (r : OwnershipRecord) (b : Nat) (d now : Int)
    (hlt : r.loaned_to = none) (hld : r.loan_duration = none)
    (hd : 1 ≤ d) (hb : b ≠ r.user_id) :
    ∃ r₁ r₂, loanRec r b d now = .ok r₁ ∧ returnLoanRec r₁ = .ok r₂ ∧
      r₂.loaned_to = none ∧ r₂.loan_duration = none ∧
      r₂.user_id = r.user_id ∧ r₂.game_id = r.game_id ∧
      r₂.kind = r.kind ∧ r₂.hours_played = r.hours_played ∧
      r₂.status = r.status ∧ r₂.ownership_id = r.ownership_id := by
  have hd' : ¬ d < 1 := not_lt.mpr hd
  have hb' : (b == r.user_id) = false := by simp [hb]
  refine ⟨{ r with
      loaned_to := some b
      loan_duration := some d
      loan_start := some now },
    { r with loaned_to := none, loan_duration := none, loan_start := none },
    ?_, rfl, rfl, rfl, rfl, rfl, rfl, rfl, rfl, rfl⟩
  simp [loanRec, hlt, hld, hd', hb']

/-- C1 witness: the round trip evaluated on a fresh record, loaned to
user 2 for 7 days. -/
theorem loan_return_roundtrip_witness :
    ∃ r₁ r₂, loanRec demoAvailRec 2 7 0 = .ok r₁ ∧
      returnLoanRec r₁ = .ok r₂ ∧
      r₂.loaned_to = none ∧ r₂.loan_duration = none ∧
      r₂.user_id = demoAvailRec.user_id ∧
      r₂.game_id = demoAvailRec.game_id ∧
      r₂.kind = demoAvailRec.kind ∧
      r₂.hours_played = demoAvailRec.hours_played ∧
      r₂.status = demoAvailRec.status ∧
      r₂.ownership_id = demoAvailRec.ownership_id :=
  loan_return_roundtrip demoAvailRec 2 7 0 rfl rfl (by decide) (by decide)

/-- C2: the loan lifecycle is a guarded two-state machine: a record in
the `OnLoan` state rejects `Loan` with `InvalidState`, a record in the
`Available` state rejects `ReturnLoan` with `InvalidState`, and in both
cases the store is unchanged. -/
theorem loan_state_machine_guards :
    (∀ (s : LibState) (oid b : Nat) (r : OwnershipRecord) (d now : Int),
      findRec s oid = some r → onLoanState r = true →
      step s (.loan oid b d now) = (s, some .InvalidState)) ∧
    (∀ (s : LibState) (oid : Nat) (r : OwnershipRecord),
      findRec s oid = some r → availableState r = true →
      step s (.returnLoan oid) = (s, some .InvalidState)) := by
  constructor
  · intro s oid b r d now hfind hon
    rw [onLoanState, Bool.and_eq_true] at hon
    simp [step, applyRec, hfind, loanRec, hon.1]
  · intro s oid r hfind hav
    rw [availableState, Bool.and_eq_true] at hav
    simp only [Option.isNone_iff_eq_none] at hav
    simp [step, applyRec, hfind, returnLoanRec, hav.1, hav.2]

/-- C2 witness: loaning the already-loaned record and returning the
available record, both rejected with the stores untouched. -/
theorem loan_state_machine_guards_witness :
    step demoLoanedState (.loan 1 3 7 0) =
      (demoLoanedState, some .InvalidState) ∧
    step demoAvailState (.returnLoan 1) =
      (demoAvailState, some .InvalidState) :=
  ⟨loan_state_machine_guards.1 demoLoanedState 1 3 demoLoanedRec 7 0 rfl rfl,
   loan_state_machine_guards.2 demoAvailState 1 demoAvailRec rfl rfl⟩

/-- C3: on an `Available` record, `Loan` with `durationDays < 1` or with
the borrower equal to the record's owner fails with `InvalidArgument`
and leaves the store unchanged (an `OnLoan` record is rejected earlier
with `InvalidState`, per the spec's failure order). -/
theorem loan_invalid_argument (s : LibState) (oid b : Nat)
    (r : OwnershipRecord) (d now : Int)
    (hfind : findRec s oid = some r)
    (hlt : r.loaned_to = none) (hld : r.loan_duration = none)
    (harg : d < 1 ∨ b = r.user_id) :
    step s (.loan oid b d now) = (s, some .InvalidArgument) := by
  have hle : loanRec r b d now = .error .InvalidArgument := by
    unfold loanRec
    rw [hlt, hld]
    rcases harg with hd | hb
    · simp [hd]
    · simp [hb]
  simp [step, applyRec, hfind, hle]

/-- C3 witness: a zero-day loan request against the available record. -/
theorem loan_invalid_argument_witness :
    step demoAvailState (.loan 1 2 0 0) =
      (demoAvailState, some .InvalidArgument) :=
  loan_invalid_argument demoAvailState 1 2 demoAvailRec 0 0 rfl rfl rfl
    (Or.inl (by decide))

/-- C4: when no active record for `(ownerId, gameId)` exists, the first
`AddToLibrary` succeeds and inserts a record with status `owned`, zero
hours played and no loan fields, and a second `AddToLibrary` for the
same pair fails with `DuplicateOwnership` leaving the store's contents
unchanged. -/
theorem addToLibrary_once_then_duplicate (s : LibState)
    (ownerId gameId : Nat) (kind kind' : String) (now now' : Int)
    (hfree : s.recs.any
      (fun r => r.user_id == ownerId && r.game_id == gameId) = false) :
    ∃ s₁, step s (.addToLibrary ownerId gameId kind now) = (s₁, none) ∧
      s₁.recs = s.recs ++ [mkRecord s.nextId ownerId gameId kind now] ∧
      (mkRecord s.nextId ownerId gameId kind now).status = "owned" ∧
      (mkRecord s.nextId ownerId gameId kind now).hours_played = 0 ∧
      (mkRecord s.nextId ownerId gameId kind now).loaned_to = none ∧
      (mkRecord s.nextId ownerId gameId kind now).loan_duration = none ∧
      (mkRecord s.nextId ownerId gameId kind now).user_id = ownerId ∧
      (mkRecord s.nextId ownerId gameId kind now).game_id = gameId ∧
      step s₁ (.addToLibrary ownerId gameId kind' now') =
        (s₁, some .DuplicateOwnership) := by
  refine ⟨{ recs := s.recs ++ [mkRecord s.nextId ownerId gameId kind now],
            nextId := s.nextId + 1 },
    ?_, rfl, rfl, rfl, rfl, rfl, rfl, rfl, ?_⟩
  · simp [step, hfree]
  · simp [step, List.any_append, mkRecord]

/-- C4 witness: adding (owner 1, game 42) twice to the empty store. -/
theorem addToLibrary_once_then_duplicate_witness :
    ∃ s₁, step initState (.addToLibrary 1 42 "digital" 0) = (s₁, none) ∧
      s₁.recs = initState.recs ++ [mkRecord initState.nextId 1 42 "digital" 0] ∧
      (mkRecord initState.nextId 1 42 "digital" 0).status = "owned" ∧
      (mkRecord initState.nextId 1 42 "digital" 0).hours_played = 0 ∧
      (mkRecord initState.nextId 1 42 "digital" 0).loaned_to = none ∧
      (mkRecord initState.nextId 1 42 "digital" 0).loan_duration = none ∧
      (mkRecord initState.nextId 1 42 "digital" 0).user_id = 1 ∧
      (mkRecord initState.nextId 1 42 "digital" 0).game_id = 42 ∧
      step s₁ (.addToLibrary 1 42 "physical" 9) =
        (s₁, some .DuplicateOwnership) :=
  addToLibrary_once_then_duplicate initState 1 42 "digital" "physical" 0 9 rfl

/-- C5 counterexample: deleting the borrower's user account while a loan
is active reaches a record with `loaned_to` cleared (the schema's
`ON DELETE SET NULL`) but `loan_duration` still set — exactly one of
the two loan fields, which the claim says no operation sequence can
produce. -/
theorem delete_borrower_breaks_loan_pairing :
    ((runCmds initState deleteBorrowerCmds).recs.any halfSetLoan = true) ∧
    (runCmds initState deleteBorrowerCmds).recs.map
      (fun r => (r.loaned_to, r.loan_duration)) = [(none, some 7)] := by
  constructor <;> rfl

/-- C5 (amended): under every sequence of the subsystem's own commands
(`addToLibrary`, `loan`, `returnLoan`, `updatePlaytime`, `setStatus` —
everything except borrower-account deletion), every reachable record has
`loaned_to` and `loan_duration` both present or both absent; deletion of
the borrower's account breaks the pairing because the schema's
`ON DELETE SET NULL` clears only `loaned_to`. -/
theorem loan_fields_both_or_neither (cs : List Cmd)
    (hnd : cs.all (fun c => !(isDeleteCmd c)) = true) :
    (runCmds initState cs).recs.all (fun r => !(halfSetLoan r)) = true := by
  suffices h : ∀ (cs : List Cmd) (s : LibState),
      cs.all (fun c => !(isDeleteCmd c)) = true →
      s.recs.all (fun r => !(halfSetLoan r)) = true →
      (runCmds s cs).recs.all (fun r => !(halfSetLoan r)) = true by
    exact h cs initState hnd rfl
  intro cs
  induction cs with
  | nil => intro s _ hs; exact hs
  | cons c cs ih =>
    intro s hall hs
    rw [List.all_cons, Bool.and_eq_true] at hall
    have hc : isDeleteCmd c = false := by simpa using hall.1
    have hstep := step_preserves_no_half s c hc hs
    exact ih (step s c).1 hall.2 hstep

/-- C5 witness: a full create–loan–return cycle keeps the pairing. -/
theorem loan_fields_both_or_neither_witness :
    (loanCycleCmds.all (fun c => !(isDeleteCmd c)) = true) ∧
    (runCmds initState loanCycleCmds).recs.all
      (fun r => !(halfSetLoan r)) = true :=
  ⟨by decide, loan_fields_both_or_neither loanCycleCmds (by decide)⟩

/-- C6: the projection computes `days_remaining` from the purchase
timestamp `date_purchased` — the schema has no loan-start column — so a
record purchased at time 0 and loaned 10 days later for 7 days yields
−3 (clamped to 0 for display) where the claim's loan-start-based value
is 7; the display clamp itself never shows a negative value. -/
theorem days_remaining_measured_from_purchase :
    daysRemainingSrc staleLoanRec (10 * msPerDay) = -3 ∧
    displayedDaysRemaining (daysRemainingSrc staleLoanRec (10 * msPerDay)) = 0 ∧
    daysRemainingLoanStart staleLoanRec (10 * msPerDay) = 7 ∧
    ∀ q : ℚ, 0 ≤ displayedDaysRemaining q := by
  have hsrc : daysRemainingSrc staleLoanRec (10 * msPerDay) = -3 := by
    norm_num [daysRemainingSrc, staleLoanRec, mkRecord, msPerDay]
  refine ⟨hsrc, ?_, ?_, fun q => le_max_left 0 (jsCeil q)⟩
  · rw [hsrc]; rfl
  · norm_num [daysRemainingLoanStart, staleLoanRec, mkRecord, msPerDay]

/-- C7 counterexample: a record on loan viewed by its owner
(`is_borrowed` false, `loaned_to` set) still gets the playtime / price /
added-date block rendered — the view gates that block only on
`!is_borrowed`, so it is not suppressed for the owner as claimed. -/
theorem owner_view_stats_not_suppressed :
    ownerLoanedItem.is_borrowed = false ∧
    jsTruthyNat ownerLoanedItem.loaned_to = true ∧
    showStatsBlock ownerLoanedItem = true := by
  exact ⟨rfl, rfl, rfl⟩

/-- C7 (amended): for an on-loan item viewed by its owner the view
attaches the `loaned to` overlay with `loaned_to_username` while the
playtime / price / added-date block stays visible (it is suppressed only
in the borrower's view) and no action button is offered; for the
borrower the view attaches `owner_username` and the remaining days,
suppresses the stats block, and offers the return button. -/
theorem library_view_owner_vs_borrower :
    (∀ g : UserLibraryItem, g.is_borrowed = false →
      jsTruthyNat g.loaned_to = true →
      showLoanedOverlay g = true ∧
      loanedOverlayText g = "loaned to " ++ g.loaned_to_username.getD "user" ∧
      showStatsBlock g = true ∧ cardButton g = .noBtn) ∧
    (∀ g : UserLibraryItem, g.is_borrowed = true →
      showBorrowedBadge g = true ∧
      borrowedBadgeText g = "borrowed from " ++ g.owner_username.getD "" ∧
      showStatsBlock g = false ∧
      showTimeRemaining g = g.days_remaining.isSome ∧
      cardButton g = .returnBtn) := by
  constructor
  · intro g hb ht
    refine ⟨?_, rfl, ?_, ?_⟩
    · simp [showLoanedOverlay, hb, ht]
    · simp [showStatsBlock, hb]
    · simp [cardButton, hb, ht]
  · intro g hb
    refine ⟨hb, rfl, ?_, ?_, ?_⟩
    · simp [showStatsBlock, hb]
    · simp [showTimeRemaining, hb]
    · simp [cardButton, hb]

/-- C7 witness: the two display modes evaluated on the owner's and the
borrower's view of the loaned game. -/
theorem library_view_owner_vs_borrower_witness :
    (showLoanedOverlay ownerLoanedItem = true ∧
      loanedOverlayText ownerLoanedItem =
        "loaned to " ++ ownerLoanedItem.loaned_to_username.getD "user" ∧
      showStatsBlock ownerLoanedItem = true ∧
      cardButton ownerLoanedItem = .noBtn) ∧
    (showBorrowedBadge borrowerItem = true ∧
      borrowedBadgeText borrowerItem =
        "borrowed from " ++ borrowerItem.owner_username.getD "" ∧
      showStatsBlock borrowerItem = false ∧
      showTimeRemaining borrowerItem = borrowerItem.days_remaining.isSome ∧
      cardButton borrowerItem = .returnBtn) :=
  ⟨library_view_owner_vs_borrower.1 ownerLoanedItem rfl rfl,
   library_view_owner_vs_borrower.2 borrowerItem rfl⟩

/-- C8: `UpdatePlaytime` with a non-negative delta adds exactly that
delta to `hours_played`, touching no other field and so independent of
the loan state; a negative delta fails with `InvalidArgument` and leaves
the store unchanged. -/
theorem update_playtime_delta (s : LibState) (oid : Nat)
    (r : OwnershipRecord) (delta : ℚ) (hfind : findRec s oid = some r) :
    (¬ delta < 0 →
      step s (.updatePlaytime oid delta) =
        ({ s with recs :=
                    replaceRec s.recs oid
                      { r with hours_played := r.hours_played + delta } },
          none)) ∧
    (delta < 0 →
      step s (.updatePlaytime oid delta) = (s, some .InvalidArgument)) := by
  constructor
  · intro hnn
    simp [step, applyRec, hfind, recordPlaytimeRec, hnn]
  · intro hneg
    simp [step, applyRec, hfind, recordPlaytimeRec, hneg]

/-- C8 witness: a 2.5-hour delta lands exactly, and a −1-hour delta is
rejected with the store untouched. -/
theorem update_playtime_delta_witness :
    (step demoAvailState (.updatePlaytime 1 (5 / 2)) =
      ({ demoAvailState with recs :=
                               replaceRec demoAvailState.recs 1
                                 { demoAvailRec with hours_played := demoAvailRec.hours_played + 5 / 2 } },
        none)) ∧
    (step demoAvailState (.updatePlaytime 1 (-1)) =
      (demoAvailState, some .InvalidArgument)) :=
  ⟨(update_playtime_delta demoAvailState 1 demoAvailRec (5 / 2) rfl).1
      (by norm_num),
   (update_playtime_delta demoAvailState 1 demoAvailRec (-1) rfl).2
      (by norm_num)⟩

/-- C9 counterexample: two items with equal `hours_played`, fetched with
ownership id 2 before id 1, come out of the hours sort still in fetch
order `[2, 1]` — the comparator has no ownership-id tiebreak, so the
output is not in ascending ownership-id order as claimed. -/
theorem sort_ties_not_by_ownership_id :
    (filteredAndSortedGames .hours "" [tieItemA, tieItemB]).map
      (fun g => g.ownership_id) = [2, 1] ∧
    ¬ List.Sorted (· ≤ ·)
      ((filteredAndSortedGames .hours "" [tieItemA, tieItemB]).map
        (fun g => g.ownership_id)) := by
  have hcmp : ¬ cmpGames .hours tieItemB tieItemA < 0 := by
    norm_num [cmpGames, tieItemA, tieItemB]
  have hfilter : [tieItemA, tieItemB].filter (matchesSearch "") =
      [tieItemA, tieItemB] := rfl
  have h2 : insertCmp (cmpGames .hours) tieItemB [tieItemA] =
      [tieItemA, tieItemB] := by
    show (if cmpGames .hours tieItemB tieItemA < 0 then
        tieItemB :: [tieItemA]
      else tieItemA :: insertCmp (cmpGames .hours) tieItemB []) =
        [tieItemA, tieItemB]
    rw [if_neg hcmp]
    rfl
  have hsort : filteredAndSortedGames .hours "" [tieItemA, tieItemB] =
      [tieItemA, tieItemB] := by
    show sortCmp (cmpGames .hours)
      ([tieItemA, tieItemB].filter (matchesSearch "")) = [tieItemA, tieItemB]
    rw [hfilter]
    show insertCmp (cmpGames .hours) tieItemB
      (insertCmp (cmpGames .hours) tieItemA []) = [tieItemA, tieItemB]
    rw [show insertCmp (cmpGames .hours) tieItemA [] = [tieItemA] from rfl, h2]
  rw [hsort]
  exact ⟨rfl, by decide⟩

/-- C9 (amended): filtering and sorting are pure transforms and the
sort is stable: in an arbitrary library, for every value of the hours
or purchase-date sort key, the items carrying that value come out of
the sort in exactly their fetched relative order — so any two items
tied on `hours_played` (hours sort) or on `date_purchased`
(recently-added sort) keep their fetch order, and there is no
ownership-id tiebreak. -/
theorem sort_ties_keep_fetch_order :
    (∀ (q : String) (games : List UserLibraryItem) (h : ℚ),
      (filteredAndSortedGames .hours q games).filter
          (fun g => g.hours_played == h) =
        (games.filter (matchesSearch q)).filter
          (fun g => g.hours_played == h)) ∧
    (∀ (q : String) (games : List UserLibraryItem) (d : Int),
      (filteredAndSortedGames .recent q games).filter
          (fun g => g.date_purchased == d) =
        (games.filter (matchesSearch q)).filter
          (fun g => g.date_purchased == d)) := by
  constructor
  · intro q games h
    show (sortCmp (cmpGames .hours)
      (games.filter (matchesSearch q))).filter
        (fun g => g.hours_played == h) = _
    have hcmp : cmpGames .hours = fun a b : UserLibraryItem =>
        b.hours_played - a.hours_played := rfl
    rw [hcmp]
    exact sortCmp_filter_stable (fun g : UserLibraryItem => g.hours_played)
      (fun g : UserLibraryItem => g.hours_played == h) _
      (fun (a b : UserLibraryItem) ha hb => by
        have ha' : a.hours_played = h := by simpa using ha
        have hb' : b.hours_played = h := by simpa using hb
        show a.hours_played = b.hours_played
        rw [ha', hb'])
  · intro q games d
    show (sortCmp (cmpGames .recent)
      (games.filter (matchesSearch q))).filter
        (fun g => g.date_purchased == d) = _
    have hcmp : cmpGames .recent = fun a b : UserLibraryItem =>
        ((b.date_purchased : ℚ)) - ((a.date_purchased : ℚ)) := by
      funext a b
      show ((b.date_purchased - a.date_purchased : Int) : ℚ) = _
      push_cast
      ring
    rw [hcmp]
    exact sortCmp_filter_stable
      (fun g : UserLibraryItem => (g.date_purchased : ℚ))
      (fun g : UserLibraryItem => g.date_purchased == d) _
      (fun (a b : UserLibraryItem) ha hb => by
        have ha' : a.date_purchased = d := by simpa using ha
        have hb' : b.date_purchased = d := by simpa using hb
        show (a.date_purchased : ℚ) = (b.date_purchased : ℚ)
        rw [ha', hb'])

/-- C10: the loan form stores `parseInt(value) || 1`, so any typed text
that does not parse to a nonzero integer (empty, non-numeric, `"0"`)
falls back to duration 1; the input element carries `min="1"` and
`max="365"`; and the submitted request body always carries the stored
integer duration. -/
theorem loan_duration_input_coercion :
    (∀ s : String, jsParseInt s = none ∨ jsParseInt s = some 0 →
      loanDurationInput s = 1) ∧
    loanDurationInput "" = 1 ∧ loanDurationInput "abc" = 1 ∧
    loanDurationInput "0" = 1 ∧
    (∀ (uid : Nat) (s : String),
      loanRequestBody uid (loanDurationInput s) = (uid, loanDurationInput s)) ∧
    durationInputMin = 1 ∧ durationInputMax = 365 := by
  refine ⟨?_, rfl, rfl, rfl, fun uid s => rfl, rfl, rfl⟩
  intro s h
  rcases h with h | h <;> simp [loanDurationInput, h]

/-- C10 witness: the coercion evaluated on the empty duration field. -/
theorem loan_duration_input_coercion_witness :
    jsParseInt "" = none ∧ loanDurationInput "" = 1 :=
  ⟨rfl, loan_duration_input_coercion.1 "" (Or.inl rfl)⟩

end Coal
